import Mathlib

/-!
# Verification of the per-tick task state machine (screeps-starter bot)

Shallow embedding of the decision core in `src/lib.rs`:

* `run_creep` embeds the function of the same name: given one creep's state,
  the current world snapshot and that creep's entry of the `CREEP_TARGETS`
  registry, it produces the entry after the step together with the trace of
  host action primitives invoked during the step.  `run_creep` only ever
  touches the entry keyed by the creep's own name, so the registry is modelled
  by that single `Option CreepTarget` entry.
* `discover` embeds the `Entry::Vacant` branch of `run_creep` (the fallback
  task-discovery policy).
* `spawnDecision` embeds the body of the per-spawn loop of `game_loop`
  (lines 64-93 of `src/lib.rs`).

The world snapshot (`World`) models the host collaborators: fallible
identifier resolution (`ObjectId::resolve`), the return codes of the action
primitives, the adjacency test `Position::is_near_to`, and the room's
structure and active-source enumerations in host order.
-/

/-- Return codes of the screeps host API (`screeps::ReturnCode`).  The source
only distinguishes `Ok` and `NotInRange` from the rest, but the full
vocabulary is kept. -/
inductive ReturnCode
  | ok
  | errNotOwner
  | errNoPath
  | errNameExists
  | errBusy
  | errNotFound
  | errNotEnough
  | errInvalidTarget
  | errFull
  | notInRange
  | errInvalidArgs
  | errTired
  | errNoBodypart
  | errRclNotEnough
  | errGclNotEnough
deriving Repr, DecidableEq

/-- Body parts used by `game_loop` (`screeps::Part`). -/
inductive BodyPart
  | move
  | carry
  | work
deriving Repr, DecidableEq

/-- Energy cost of a body part (`Part::cost`, screeps game constants). -/
def partCost : BodyPart → Nat
  | BodyPart.move => 50
  | BodyPart.carry => 50
  | BodyPart.work => 100

/-- The fixed body composition `[Move, Move, Carry, Work]` of `game_loop`. -/
def creepBody : List BodyPart := [BodyPart.move, BodyPart.move, BodyPart.carry, BodyPart.work]

/-- `body.iter().map(|p| p.cost()).sum()` from `game_loop`. -/
def bodyCost : Nat := (creepBody.map partCost).sum

/-- The `CreepTarget` enum: a creep's lock on a target object, storing the
stable object identifier (modelled as `Nat`), re-resolved every tick. -/
inductive CreepTarget
  | charge (id : Nat)
  | upgrade (id : Nat)
  | harvest (id : Nat)
deriving Repr, DecidableEq

/-- The structures returned by `room.find(find::STRUCTURES, None)`, as the
discovery loop distinguishes them: spawns carry their free energy capacity,
controllers and all other structure kinds carry only an identifier. -/
inductive StructureObject
  | structureSpawn (id : Nat) (freeEnergy : Nat)
  | structureController (id : Nat)
  | otherStructure (id : Nat)
deriving Repr, DecidableEq

/-- One host action-primitive invocation made by `run_creep`:
`creep.move_to`, `creep.harvest`, `creep.upgrade_controller`,
`creep.transfer`, recorded with the target's identifier. -/
inductive CreepAction
  | moveTo (id : Nat)
  | harvest (id : Nat)
  | upgradeController (id : Nat)
  | transfer (id : Nat)
deriving Repr, DecidableEq

/-- The creep state read by `run_creep`: the `spawning()` flag and the energy
figures of its store (`get_used_capacity(Some(Energy))` and
`get_free_capacity(Some(Energy))`). -/
structure CreepState where
  spawning : Bool
  usedEnergy : Nat
  freeEnergy : Nat
deriving Repr, DecidableEq

/-- The world snapshot for one tick, as consumed by `run_creep` for one creep:
whether each stored identifier resolves (`ObjectId::resolve` returning
`Some`), the return code each action primitive would report against a given
target, the adjacency test against a source's position, and the room's
structure / active-source enumerations in host order. -/
structure World where
  resolveSpawn : Nat → Bool
  resolveController : Nat → Bool
  resolveSource : Nat → Bool
  upgradeControllerResult : Nat → ReturnCode
  harvestResult : Nat → ReturnCode
  transferResult : Nat → ReturnCode
  isNearTo : Nat → Bool
  structures : List StructureObject
  activeSources : List Nat

/-- Result of one `run_creep` step for one creep: the creep's registry entry
after the step (`none` after `entry.remove()`, a fresh lock after
`entry.insert`), the action primitives invoked, the identifiers on which
`.resolve()` was called, whether a `warn!` line was emitted, and whether the
`error!("No Controller could be found")` line was emitted. -/
structure StepResult where
  newLock : Option CreepTarget
  actions : List CreepAction
  resolveCalls : List Nat
  warned : Bool
  errorLogged : Bool
deriving Repr, DecidableEq

/-- The `spawners` vector of the discovery loop: identifiers of the spawn
structures with `get_free_capacity(Some(Energy)) > 0`, in enumeration order. -/
def collectSpawners (structures : List StructureObject) : List Nat :=
  structures.filterMap fun s =>
    match s with
    | StructureObject.structureSpawn id free => if 0 < free then some id else none
    | _ => none

/-- The `controller` variable of the discovery loop: it is overwritten by each
controller structure encountered, so it ends as the last controller of the
enumeration (or `none`). -/
def lastController (structures : List StructureObject) : Option Nat :=
  structures.foldl
    (fun acc s =>
      match s with
      | StructureObject.structureController id => some id
      | _ => acc)
    none

/-- The `Entry::Vacant` branch of `run_creep` (task discovery).  Returns the
lock inserted (if any) and whether the no-controller error line was logged. -/
def discover (creep : CreepState) (w : World) : Option CreepTarget × Bool :=
  if 0 < creep.usedEnergy then
    match collectSpawners w.structures with
    | id :: _ => (some (CreepTarget.charge id), false)
    | [] =>
      match lastController w.structures with
      | some cid => (some (CreepTarget.upgrade cid), false)
      | none => (none, true)
  else
    match w.activeSources with
    | sid :: _ => (some (CreepTarget.harvest sid), false)
    | [] => (none, false)

/-- Embedding of `run_creep` (src/lib.rs:98-209).  The Rust match arms carry
guards, and a lock whose variant guard fails falls through to the wildcard
arm, which removes the entry. -/
def run_creep (creep : CreepState) (w : World) (lock : Option CreepTarget) :
    StepResult :=
  if creep.spawning = true then
    { newLock := lock, actions := [], resolveCalls := [],
      warned := false, errorLogged := false }
  else
    match lock with
    | some (CreepTarget.upgrade cid) =>
      if 0 < creep.usedEnergy then
        if w.resolveController cid = true then
          let r := w.upgradeControllerResult cid
          if r = ReturnCode.notInRange then
            { newLock := some (CreepTarget.upgrade cid),
              actions := [CreepAction.upgradeController cid, CreepAction.moveTo cid],
              resolveCalls := [cid], warned := false, errorLogged := false }
          else if r ≠ ReturnCode.ok then
            { newLock := none, actions := [CreepAction.upgradeController cid],
              resolveCalls := [cid], warned := true, errorLogged := false }
          else
            { newLock := some (CreepTarget.upgrade cid),
              actions := [CreepAction.upgradeController cid],
              resolveCalls := [cid], warned := false, errorLogged := false }
        else
          { newLock := none, actions := [], resolveCalls := [cid],
            warned := false, errorLogged := false }
      else
        { newLock := none, actions := [], resolveCalls := [],
          warned := false, errorLogged := false }
    | some (CreepTarget.harvest sid) =>
      if 0 < creep.freeEnergy then
        if w.resolveSource sid = true then
          if w.isNearTo sid = true then
            let r := w.harvestResult sid
            if r ≠ ReturnCode.ok then
              { newLock := none, actions := [CreepAction.harvest sid],
                resolveCalls := [sid], warned := true, errorLogged := false }
            else
              { newLock := some (CreepTarget.harvest sid),
                actions := [CreepAction.harvest sid],
                resolveCalls := [sid], warned := false, errorLogged := false }
          else
            { newLock := some (CreepTarget.harvest sid),
              actions := [CreepAction.moveTo sid],
              resolveCalls := [sid], warned := false, errorLogged := false }
        else
          { newLock := none, actions := [], resolveCalls := [sid],
            warned := false, errorLogged := false }
      else
        { newLock := none, actions := [], resolveCalls := [],
          warned := false, errorLogged := false }
    | some (CreepTarget.charge sid) =>
      if 0 < creep.usedEnergy then
        if w.resolveSpawn sid = true then
          let r := w.transferResult sid
          if r = ReturnCode.notInRange then
            { newLock := some (CreepTarget.charge sid),
              actions := [CreepAction.transfer sid, CreepAction.moveTo sid],
              resolveCalls := [sid], warned := false, errorLogged := false }
          else if r ≠ ReturnCode.ok then
            { newLock := none, actions := [CreepAction.transfer sid],
              resolveCalls := [sid], warned := true, errorLogged := false }
          else
            { newLock := some (CreepTarget.charge sid),
              actions := [CreepAction.transfer sid],
              resolveCalls := [sid], warned := false, errorLogged := false }
        else
          { newLock := none, actions := [], resolveCalls := [sid],
            warned := false, errorLogged := false }
      else
        { newLock := none, actions := [], resolveCalls := [],
          warned := false, errorLogged := false }
    | none =>
      let d := discover creep w
      { newLock := d.1, actions := [], resolveCalls := [],
        warned := false, errorLogged := d.2 }

/-- Spawn-loop state read for one spawn in `game_loop`: whether
`spawn.spawning()` is `Some`, the room's `energy_available()`, and the
return code `spawn.spawn_creep` would report. -/
structure SpawnState where
  busy : Bool
  energyAvailable : Nat
  spawnResult : ReturnCode
deriving Repr, DecidableEq

/-- Outcome of the per-spawn loop body: how many `spawn_creep` requests were
issued for this spawn this tick, and whether a `warn!` line was emitted. -/
structure SpawnOutcome where
  requests : Nat
  warned : Bool
deriving Repr, DecidableEq

/-- Embedding of the body of the spawn loop in `game_loop`
(src/lib.rs:64-93), for one spawn, given the controlled-creep count
`game::creeps().keys().count()`. -/
def spawnDecision (creepCount : Nat) (s : SpawnState) : SpawnOutcome :=
  if s.busy = true then { requests := 0, warned := false }
  else if 8 ≤ creepCount then { requests := 0, warned := false }
  else if bodyCost ≤ s.energyAvailable then
    { requests := 1, warned := s.spawnResult != ReturnCode.ok }
  else { requests := 0, warned := false }

/-- `moveTo` targets appearing in an action trace, in order. -/
def moveTargets (l : List CreepAction) : List Nat :=
  l.filterMap fun a =>
    match a with
    | CreepAction.moveTo id => some id
    | _ => none

/-- Whether a registry entry is an `Upgrade` lock. -/
def isUpgradeLock : Option CreepTarget → Bool
  | some (CreepTarget.upgrade _) => true
  | _ => false

/-! ## Concrete fixtures used by witnesses and counterexamples -/

/-- A world where every identifier resolves, every action reports `Ok`, and
the creep is adjacent to everything; no structures, no sources. -/
def wAllOk : World :=
  { resolveSpawn := fun _ => true
    resolveController := fun _ => true
    resolveSource := fun _ => true
    upgradeControllerResult := fun _ => ReturnCode.ok
    harvestResult := fun _ => ReturnCode.ok
    transferResult := fun _ => ReturnCode.ok
    isNearTo := fun _ => true
    structures := []
    activeSources := [] }

/-- A creep carrying energy (used capacity 50, no free capacity). -/
def creepFull : CreepState := { spawning := false, usedEnergy := 50, freeEnergy := 0 }

/-- An empty creep (used capacity 0, free capacity 50). -/
def creepEmpty : CreepState := { spawning := false, usedEnergy := 0, freeEnergy := 50 }

/-- World where the `harvest` primitive reports `NotInRange`. -/
def wHarvestNIR : World := { wAllOk with harvestResult := fun _ => ReturnCode.notInRange }

/-- World where the `upgrade_controller` primitive reports `NotInRange`. -/
def wUpgNIR : World := { wAllOk with upgradeControllerResult := fun _ => ReturnCode.notInRange }

/-- World where the `transfer` primitive reports `NotInRange`. -/
def wTransNIR : World := { wAllOk with transferResult := fun _ => ReturnCode.notInRange }

/-- World where spawn identifiers fail to resolve, while the room still
contains a chargeable spawn and a controller for discovery. -/
def wSpawnGone : World :=
  { wAllOk with
    resolveSpawn := fun _ => false
    structures := [StructureObject.structureSpawn 2 300,
      StructureObject.structureController 7] }

/-- World where controller identifiers fail to resolve. -/
def wCtrlGone : World := { wAllOk with resolveController := fun _ => false }

/-- World where the `upgrade_controller` primitive reports `NotEnough`. -/
def wUpgFail : World :=
  { wAllOk with upgradeControllerResult := fun _ => ReturnCode.errNotEnough }

/-- Discovery world: an unrelated structure, a full spawn, a chargeable spawn
and a controller, in that enumeration order; one active source. -/
def wDiscovery : World :=
  { wAllOk with
    structures := [StructureObject.otherStructure 1,
      StructureObject.structureSpawn 4 0,
      StructureObject.structureSpawn 5 100,
      StructureObject.structureController 7]
    activeSources := [11, 12] }

/-- A spawn that is idle, has 300 energy available, and whose creation
attempt would report `Busy`. -/
def sReady : SpawnState :=
  { busy := false, energyAvailable := 300, spawnResult := ReturnCode.errBusy }

example : (run_creep creepFull wUpgNIR (some (CreepTarget.upgrade 1))).newLock
    = some (CreepTarget.upgrade 1) := by decide

example : (run_creep creepEmpty wHarvestNIR (some (CreepTarget.harvest 3))).newLock
    = none := by decide

example : (discover creepFull wDiscovery).1 = some (CreepTarget.charge 5) := by decide

example : (discover creepEmpty wDiscovery).1 = some (CreepTarget.harvest 11) := by decide

example : spawnDecision 7 sReady = { requests := 1, warned := true } := by decide

example : spawnDecision 8 sReady = { requests := 0, warned := false } := by decide

/-! ## Claims -/

/-- Claim C4 (confirmed): an agent with an active Upgrade or Charge lock that
holds zero energy falls through to the wildcard arm on its next step: the lock
is removed from the registry and no resolve, move, harvest, upgrade or
transfer is attempted. -/
theorem c4_zero_energy_clears (c : CreepState) (w : World) (id : Nat)
    (hs : c.spawning = false) (hu : c.usedEnergy = 0) :
    (run_creep c w (some (CreepTarget.upgrade id))).newLock = none ∧
    (run_creep c w (some (CreepTarget.upgrade id))).actions = [] ∧
    (run_creep c w (some (CreepTarget.upgrade id))).resolveCalls = [] ∧
    (run_creep c w (some (CreepTarget.charge id))).newLock = none ∧
    (run_creep c w (some (CreepTarget.charge id))).actions = [] ∧
    (run_creep c w (some (CreepTarget.charge id))).resolveCalls = [] := by
  simp [run_creep, hs, hu]

/-- Witness for C4 at a concrete empty creep and a benign world. -/
theorem c4_zero_energy_clears_witness :
    (run_creep creepEmpty wAllOk (some (CreepTarget.upgrade 1))).newLock = none ∧
    (run_creep creepEmpty wAllOk (some (CreepTarget.upgrade 1))).actions = [] ∧
    (run_creep creepEmpty wAllOk (some (CreepTarget.upgrade 1))).resolveCalls = [] ∧
    (run_creep creepEmpty wAllOk (some (CreepTarget.charge 1))).newLock = none ∧
    (run_creep creepEmpty wAllOk (some (CreepTarget.charge 1))).actions = [] ∧
    (run_creep creepEmpty wAllOk (some (CreepTarget.charge 1))).resolveCalls = [] :=
  c4_zero_energy_clears creepEmpty wAllOk 1 rfl rfl

/-- Claim C5 (confirmed): for every lock variant whose cargo precondition
holds, if the stored target identifier fails to resolve, the step removes the
lock and invokes no move, harvest, upgrade or transfer primitive. -/
theorem c5_unresolved_clears (c : CreepState) (w : World) (id : Nat)
    (hs : c.spawning = false) :
    (0 < c.usedEnergy → w.resolveController id = false →
      (run_creep c w (some (CreepTarget.upgrade id))).newLock = none ∧
      (run_creep c w (some (CreepTarget.upgrade id))).actions = []) ∧
    (0 < c.usedEnergy → w.resolveSpawn id = false →
      (run_creep c w (some (CreepTarget.charge id))).newLock = none ∧
      (run_creep c w (some (CreepTarget.charge id))).actions = []) ∧
    (0 < c.freeEnergy → w.resolveSource id = false →
      (run_creep c w (some (CreepTarget.harvest id))).newLock = none ∧
      (run_creep c w (some (CreepTarget.harvest id))).actions = []) := by
  refine ⟨fun hu hr => ?_, fun hu hr => ?_, fun hf hr => ?_⟩
  · simp [run_creep, hs, hu, hr]
  · simp [run_creep, hs, hu, hr]
  · simp [run_creep, hs, hf, hr]

/-- Witness for C5: a full creep with an Upgrade lock on a vanished
controller. -/
theorem c5_unresolved_clears_witness :
    (run_creep creepFull wCtrlGone (some (CreepTarget.upgrade 6))).newLock = none ∧
    (run_creep creepFull wCtrlGone (some (CreepTarget.upgrade 6))).actions = [] :=
  (c5_unresolved_clears creepFull wCtrlGone 6 rfl).1 (by decide) rfl

/-- Claim C6 (confirmed): for every lock variant, when the attempted task
action reports a non-success status other than NotInRange, the step removes
the lock from the registry. -/
theorem c6_failure_clears (c : CreepState) (w : World) (id : Nat)
    (hs : c.spawning = false) :
    (0 < c.usedEnergy → w.resolveController id = true →
      w.upgradeControllerResult id ≠ ReturnCode.ok →
      w.upgradeControllerResult id ≠ ReturnCode.notInRange →
      (run_creep c w (some (CreepTarget.upgrade id))).newLock = none) ∧
    (0 < c.usedEnergy → w.resolveSpawn id = true →
      w.transferResult id ≠ ReturnCode.ok →
      w.transferResult id ≠ ReturnCode.notInRange →
      (run_creep c w (some (CreepTarget.charge id))).newLock = none) ∧
    (0 < c.freeEnergy → w.resolveSource id = true → w.isNearTo id = true →
      w.harvestResult id ≠ ReturnCode.ok →
      w.harvestResult id ≠ ReturnCode.notInRange →
      (run_creep c w (some (CreepTarget.harvest id))).newLock = none) := by
  refine ⟨fun hu hr hok hnir => ?_, fun hu hr hok hnir => ?_,
    fun hf hr hn hok hnir => ?_⟩
  · simp [run_creep, hs, hu, hr, hok, hnir]
  · simp [run_creep, hs, hu, hr, hok, hnir]
  · simp [run_creep, hs, hf, hr, hn, hok]

/-- Witness for C6: an upgrade attempt reporting NotEnough clears the lock. -/
theorem c6_failure_clears_witness :
    (run_creep creepFull wUpgFail (some (CreepTarget.upgrade 6))).newLock = none :=
  (c6_failure_clears creepFull wUpgFail 6 rfl).1 (by decide) rfl
    (by decide) (by decide)

/-- Claim C9 (confirmed): task discovery is a pure function of the world
snapshot and the agent's cargo state; two invocations on identical inputs
return identical assignments. -/
theorem c9_discovery_deterministic (c₁ c₂ : CreepState) (w₁ w₂ : World)
    (hc : c₁ = c₂) (hw : w₁ = w₂) :
    discover c₁ w₁ = discover c₂ w₂ := by
  rw [hc, hw]

/-- Witness for C9 at a concrete snapshot. -/
theorem c9_discovery_deterministic_witness :
    discover creepFull wDiscovery = discover creepFull wDiscovery :=
  c9_discovery_deterministic creepFull creepFull wDiscovery wDiscovery rfl rfl

/-- Claim C10 (confirmed): a step that starts with no lock invokes no action
primitive and no resolve, and emits no warning, whatever task discovery
assigns; a freshly inserted lock is only acted upon in a later tick. -/
theorem c10_discovery_step_acts_not (c : CreepState) (w : World) :
    (run_creep c w none).actions = [] ∧
    (run_creep c w none).resolveCalls = [] ∧
    (run_creep c w none).warned = false ∧
    (run_creep c w none).newLock =
      (if c.spawning = true then none else (discover c w).1) := by
  by_cases hs : c.spawning = true <;> simp [run_creep, hs]

/-- Claim C1 as stated is false for the Harvest variant: when the creep is
adjacent and the attempted harvest call itself reports NotInRange, the code
treats it like any other failure — the lock is removed and no move is
issued. -/
theorem c1_counterexample :
    0 < creepEmpty.freeEnergy ∧
    wHarvestNIR.resolveSource 3 = true ∧
    wHarvestNIR.isNearTo 3 = true ∧
    wHarvestNIR.harvestResult 3 = ReturnCode.notInRange ∧
    (run_creep creepEmpty wHarvestNIR (some (CreepTarget.harvest 3))).newLock
      = none ∧
    moveTargets
      (run_creep creepEmpty wHarvestNIR (some (CreepTarget.harvest 3))).actions
      = [] := by
  decide

/-- Claim C1 (corrected): for Charge and Upgrade, a NotInRange return never
clears the lock and triggers exactly one move toward the target.  For
Harvest the out-of-range condition is detected by the adjacency check before
the action: when the source resolves and the creep is not adjacent, the lock
is kept and exactly one move is issued, while a NotInRange status returned by
the attempted harvest itself clears the lock like any other failure. -/
theorem c1_not_in_range_moves :
    (∀ (c : CreepState) (w : World) (cid : Nat),
      c.spawning = false → 0 < c.usedEnergy → w.resolveController cid = true →
      w.upgradeControllerResult cid = ReturnCode.notInRange →
      (run_creep c w (some (CreepTarget.upgrade cid))).newLock
        = some (CreepTarget.upgrade cid) ∧
      moveTargets (run_creep c w (some (CreepTarget.upgrade cid))).actions
        = [cid]) ∧
    (∀ (c : CreepState) (w : World) (sid : Nat),
      c.spawning = false → 0 < c.usedEnergy → w.resolveSpawn sid = true →
      w.transferResult sid = ReturnCode.notInRange →
      (run_creep c w (some (CreepTarget.charge sid))).newLock
        = some (CreepTarget.charge sid) ∧
      moveTargets (run_creep c w (some (CreepTarget.charge sid))).actions
        = [sid]) ∧
    (∀ (c : CreepState) (w : World) (sid : Nat),
      c.spawning = false → 0 < c.freeEnergy → w.resolveSource sid = true →
      w.isNearTo sid = false →
      (run_creep c w (some (CreepTarget.harvest sid))).newLock
        = some (CreepTarget.harvest sid) ∧
      moveTargets (run_creep c w (some (CreepTarget.harvest sid))).actions
        = [sid]) ∧
    (∀ (c : CreepState) (w : World) (sid : Nat),
      c.spawning = false → 0 < c.freeEnergy → w.resolveSource sid = true →
      w.isNearTo sid = true →
      w.harvestResult sid = ReturnCode.notInRange →
      (run_creep c w (some (CreepTarget.harvest sid))).newLock = none) := by
  refine ⟨fun c w cid hs hu hr hn => ?_, fun c w sid hs hu hr hn => ?_,
    fun c w sid hs hf hr hn => ?_, fun c w sid hs hf hr hn hres => ?_⟩
  · simp [run_creep, hs, hu, hr, hn, moveTargets]
  · simp [run_creep, hs, hu, hr, hn, moveTargets]
  · simp [run_creep, hs, hf, hr, hn, moveTargets]
  · simp [run_creep, hs, hf, hr, hn, hres]

/-- Witness for the corrected C1: an in-progress Upgrade that is out of
range keeps its lock and issues one move. -/
theorem c1_not_in_range_moves_witness :
    (run_creep creepFull wUpgNIR (some (CreepTarget.upgrade 1))).newLock
      = some (CreepTarget.upgrade 1) ∧
    moveTargets
      (run_creep creepFull wUpgNIR (some (CreepTarget.upgrade 1))).actions
      = [1] :=
  c1_not_in_range_moves.1 creepFull wUpgNIR 1 rfl (by decide) rfl rfl

/-- Claim C2 as stated is false: a Charge lock whose precondition holds and
whose transfer attempt reports NotInRange invokes two primitives in the same
step (the transfer attempt, then one move), not exactly one. -/
theorem c2_counterexample :
    0 < creepFull.usedEnergy ∧
    wTransNIR.resolveSpawn 4 = true ∧
    (run_creep creepFull wTransNIR (some (CreepTarget.charge 4))).actions
      = [CreepAction.transfer 4, CreepAction.moveTo 4] ∧
    (run_creep creepFull wTransNIR (some (CreepTarget.charge 4))).actions.length
      = 2 := by
  decide

/-- Claim C2 (corrected): with an active lock whose precondition holds, a
step invokes no primitive when the target fails to resolve; otherwise it
invokes the variant's task action exactly once (for Harvest only when
adjacent, a move replacing it when not), plus exactly one additional move
when a Charge or Upgrade attempt reports NotInRange — never more than two
primitives in total. -/
theorem c2_action_trace :
    ∀ (c : CreepState) (w : World) (id : Nat), c.spawning = false →
    (0 < c.usedEnergy →
      (run_creep c w (some (CreepTarget.upgrade id))).actions =
        (if w.resolveController id = true then
          CreepAction.upgradeController id ::
            (if w.upgradeControllerResult id = ReturnCode.notInRange then
              [CreepAction.moveTo id] else [])
         else [])) ∧
    (0 < c.usedEnergy →
      (run_creep c w (some (CreepTarget.charge id))).actions =
        (if w.resolveSpawn id = true then
          CreepAction.transfer id ::
            (if w.transferResult id = ReturnCode.notInRange then
              [CreepAction.moveTo id] else [])
         else [])) ∧
    (0 < c.freeEnergy →
      (run_creep c w (some (CreepTarget.harvest id))).actions =
        (if w.resolveSource id = true then
          (if w.isNearTo id = true then [CreepAction.harvest id]
           else [CreepAction.moveTo id])
         else [])) ∧
    (∀ tgt : CreepTarget,
      (run_creep c w (some tgt)).actions.length ≤ 2) := by
  intro c w id hs
  refine ⟨fun hu => ?_, fun hu => ?_, fun hf => ?_, fun tgt => ?_⟩
  · simp only [run_creep, hs, hu, Bool.false_eq_true, if_false, if_pos]
    (repeat' split) <;> simp_all
  · simp only [run_creep, hs, hu, Bool.false_eq_true, if_false, if_pos]
    (repeat' split) <;> simp_all
  · simp only [run_creep, hs, hf, Bool.false_eq_true, if_false, if_pos]
    (repeat' split) <;> simp_all
  · rcases tgt with tid | tid | tid <;>
      simp only [run_creep, hs, Bool.false_eq_true, if_false] <;>
      (repeat' split) <;> simp

/-- Witness for the corrected C2: a resolving Charge target with an Ok
transfer produces exactly the one-element trace the characterization gives. -/
theorem c2_action_trace_witness :
    (run_creep creepFull wAllOk (some (CreepTarget.charge 4))).actions =
      (if wAllOk.resolveSpawn 4 = true then
        CreepAction.transfer 4 ::
          (if wAllOk.transferResult 4 = ReturnCode.notInRange then
            [CreepAction.moveTo 4] else [])
       else []) :=
  ((c2_action_trace creepFull wAllOk 4 rfl).2.1) (by decide)

/-- Claim C3 as stated is false: when the Charge target fails to resolve the
lock is cleared and no action is issued, but the agent is not re-evaluated
within the same step — discovery would have assigned Charge on spawn 2, yet
the step ends with no lock at all. -/
theorem c3_counterexample :
    0 < creepFull.usedEnergy ∧
    wSpawnGone.resolveSpawn 9 = false ∧
    (discover creepFull wSpawnGone).1 = some (CreepTarget.charge 2) ∧
    (run_creep creepFull wSpawnGone (some (CreepTarget.charge 9))).newLock
      = none ∧
    (run_creep creepFull wSpawnGone (some (CreepTarget.charge 9))).actions
      = [] := by
  decide

/-- Claim C3 (corrected): with a Charge lock whose spawn fails to resolve,
the step clears the lock and issues no action; the agent is treated as
unassigned from the next step on — a step that starts with no lock runs task
discovery and installs its assignment. -/
theorem c3_unresolved_charge_clears (c : CreepState) (w : World) (sid : Nat)
    (hs : c.spawning = false) (hu : 0 < c.usedEnergy)
    (hr : w.resolveSpawn sid = false) :
    (run_creep c w (some (CreepTarget.charge sid))).newLock = none ∧
    (run_creep c w (some (CreepTarget.charge sid))).actions = [] ∧
    (run_creep c w none).newLock = (discover c w).1 := by
  refine ⟨?_, ?_, ?_⟩ <;> simp [run_creep, hs, hu, hr]

/-- Witness for the corrected C3 at the concrete vanished-spawn world. -/
theorem c3_unresolved_charge_clears_witness :
    (run_creep creepFull wSpawnGone (some (CreepTarget.charge 9))).newLock
      = none ∧
    (run_creep creepFull wSpawnGone (some (CreepTarget.charge 9))).actions
      = [] ∧
    (run_creep creepFull wSpawnGone none).newLock
      = (discover creepFull wSpawnGone).1 :=
  c3_unresolved_charge_clears creepFull wSpawnGone 9 rfl (by decide) rfl

/-- If every spawn before the marked one has zero free capacity and the
marked one has positive free capacity, the `spawners` vector starts with the
marked spawn. -/
lemma collectSpawners_first_positive (pre post : List StructureObject)
    (id free : Nat) (hfree : 0 < free)
    (hpre : ∀ j f, StructureObject.structureSpawn j f ∈ pre → f = 0) :
    collectSpawners (pre ++ StructureObject.structureSpawn id free :: post)
      = id :: collectSpawners post := by
  induction pre with
  | nil => simp [collectSpawners, hfree]
  | cons a pre ih =>
    have hrest : ∀ j f, StructureObject.structureSpawn j f ∈ pre → f = 0 :=
      fun j f hm => hpre j f (List.mem_cons_of_mem a hm)
    cases a with
    | structureSpawn j f =>
      have hf : f = 0 := hpre j f (List.mem_cons_self _ _)
      subst hf
      simpa [collectSpawners] using ih hrest
    | structureController j =>
      simpa [collectSpawners] using ih hrest
    | otherStructure j =>
      simpa [collectSpawners] using ih hrest

/-- Claim C7 (confirmed): an unlocked, energy-carrying agent in a room whose
structure enumeration contains a spawn with free capacity (and none with free
capacity before it) is assigned Charge on that first spawn, and is never
assigned Upgrade, controller present or not. -/
theorem c7_charge_priority (c : CreepState) (w : World)
    (pre post : List StructureObject) (id free : Nat)
    (hs : c.spawning = false) (hu : 0 < c.usedEnergy)
    (hstr : w.structures = pre ++ StructureObject.structureSpawn id free :: post)
    (hfree : 0 < free)
    (hpre : ∀ j f, StructureObject.structureSpawn j f ∈ pre → f = 0) :
    (run_creep c w none).newLock = some (CreepTarget.charge id) ∧
    isUpgradeLock (run_creep c w none).newLock = false := by
  have hcs : collectSpawners w.structures = id :: collectSpawners post := by
    rw [hstr]
    exact collectSpawners_first_positive pre post id free hfree hpre
  constructor
  · simp [run_creep, hs, discover, hu, hcs]
  · simp [run_creep, hs, discover, hu, hcs, isUpgradeLock]

/-- Witness for C7 at the concrete discovery world: the full spawn 4 is
passed over in favour of spawn 5, and the controller at 7 is ignored. -/
theorem c7_charge_priority_witness :
    (run_creep creepFull wDiscovery none).newLock
      = some (CreepTarget.charge 5) ∧
    isUpgradeLock (run_creep creepFull wDiscovery none).newLock = false :=
  c7_charge_priority creepFull wDiscovery
    [StructureObject.otherStructure 1, StructureObject.structureSpawn 4 0]
    [StructureObject.structureController 7] 5 100 rfl (by decide) rfl
    (by decide)
    (by
      intro j f hm
      simp at hm
      exact hm.2)

/-- Claim C8 (confirmed): for a spawn that is not busy, a creation request is
issued in a cycle exactly when the controlled-creep count is below 8 and the
room's available energy covers the cost of `[Move, Move, Carry, Work]`; at
most one request is issued per spawn per cycle, none at a count of 8, and a
non-Ok creation result raises the warning diagnostic. -/
theorem c8_spawn_cap (creepCount : Nat) (s : SpawnState)
    (hb : s.busy = false) :
    ((spawnDecision creepCount s).requests = 1 ↔
      creepCount < 8 ∧ bodyCost ≤ s.energyAvailable) ∧
    (spawnDecision creepCount s).requests ≤ 1 ∧
    (creepCount = 8 → (spawnDecision creepCount s).requests = 0) ∧
    (s.spawnResult ≠ ReturnCode.ok →
      (spawnDecision creepCount s).requests = 1 →
      (spawnDecision creepCount s).warned = true) := by
  refine ⟨?_, ?_, ?_, ?_⟩
  · by_cases h8 : 8 ≤ creepCount <;>
      by_cases he : bodyCost ≤ s.energyAvailable <;>
      (simp [spawnDecision, hb, h8, he]; all_goals omega)
  · by_cases h8 : 8 ≤ creepCount <;>
      by_cases he : bodyCost ≤ s.energyAvailable <;>
      simp [spawnDecision, hb, h8, he]
  · intro h8
    simp [spawnDecision, hb, h8]
  · intro hne
    by_cases h8 : 8 ≤ creepCount <;>
      by_cases he : bodyCost ≤ s.energyAvailable <;>
      simp [spawnDecision, hb, h8, he, bne_iff_ne, hne]

/-- Witness for C8: at a count of 7 with 300 energy available, exactly one
request is issued. -/
theorem c8_spawn_cap_witness :
    (spawnDecision 7 sReady).requests = 1 ↔
      7 < 8 ∧ bodyCost ≤ sReady.energyAvailable :=
  (c8_spawn_cap 7 sReady rfl).1
